import Mathlib

/-!
Verification of the route-weather pipeline of public/app.js (weather-route-map).

Shallow embedding conventions:
* JS floating-point numbers are modelled by real numbers where the source uses
  transcendental functions (haversine, Math.sqrt) and by rationals elsewhere
  (timestamps in milliseconds, miles, temperatures); WMO weather codes are
  integers.
* The JS expression index / (len - 1) evaluates to NaN (0/0) when len = 1; a
  NaN-producing division is modelled by an Option value, none standing for NaN.
* Date values are modelled by their millisecond timestamps.
-/

namespace WeatherRouteMap

/-- Longitude/latitude pair in degrees, in the order the source stores it:
coordinates are [lon, lat] arrays (WGS84). -/
abbrev Coord : Type := ℝ × ℝ

/-- Models app.js lines 470-471 inside getWeatherForRoute:
progress ratio = index / (totalPoints - 1), a number from 0 to 1 per the
source comment.  In JS, when totalPoints = 1 this is 0/0 = NaN (the map
callback only runs with index < totalPoints, so index = 0 there); NaN is
modelled as none.  The identical expression index / (weatherData.length - 1)
appears again at line 763 of displayRouteInfo and is shared here. -/
def progressFrac (index totalPoints : ℕ) : Option ℚ :=
  if totalPoints = 1 then none
  else some ((index : ℚ) / ((totalPoints : ℚ) - 1))

/-- Models the arrival-time computation of getWeatherForRoute (app.js lines
463-473): for each point index, pointTime = departure + totalDurationSeconds *
progressRatio * 1000 in milliseconds.  A NaN ratio (totalPoints = 1) yields an
invalid date, modelled as none. -/
def pointArrivalTimes (departureMs totalDurationSeconds : ℚ)
    (totalPoints : ℕ) : List (Option ℚ) :=
  (List.range totalPoints).map fun index =>
    (progressFrac index totalPoints).map fun r =>
      departureMs + totalDurationSeconds * r * 1000

/-- Models the forecast-hour selection of getWeatherForRoute (app.js lines
488-490): hoursSinceStart = floor of the millisecond difference divided by
3600000, then clamped by min into the array and by max to 0. -/
def hourIndex (pointTimeMs dataStartTimeMs : ℚ) (returnedHours : ℕ) : ℤ :=
  max 0 (min ⌊(pointTimeMs - dataStartTimeMs) / (1000 * 60 * 60)⌋
            ((returnedHours : ℤ) - 1))

/-- Models getWeatherColor (app.js lines 529-560).  The source declares a
precipitation parameter but never reads it; it is kept here unused exactly as
in the source.  The early returns become an else-if chain. -/
def getWeatherColor (weatherCode : ℤ) (precipitation : ℚ) : String :=
  if weatherCode = 0 then "#4ade80"
  else if 1 ≤ weatherCode ∧ weatherCode ≤ 3 then "#86efac"
  else if weatherCode = 45 ∨ weatherCode = 48 then "#9ca3af"
  else if 51 ≤ weatherCode ∧ weatherCode ≤ 57 then "#60a5fa"
  else if weatherCode = 61 ∨ weatherCode = 80 then "#60a5fa"
  else if weatherCode = 63 ∨ weatherCode = 81 then "#3b82f6"
  else if weatherCode = 65 ∨ weatherCode = 66 ∨ weatherCode = 67 ∨ weatherCode = 82
    then "#1e40af"
  else if weatherCode = 71 ∨ weatherCode = 85 then "#e9d5ff"
  else if weatherCode = 73 then "#a855f7"
  else if weatherCode = 75 ∨ weatherCode = 77 ∨ weatherCode = 86 then "#9333ea"
  else if 95 ≤ weatherCode then "#ef4444"
  else "#6b7280"

/-- Models getWeatherDescription (app.js lines 563-591): an object lookup with
fallback to the string Unknown when the key is absent. -/
def getWeatherDescription (weatherCode : ℤ) : String :=
  if weatherCode = 0 then "Clear sky"
  else if weatherCode = 1 then "Mainly clear"
  else if weatherCode = 2 then "Partly cloudy"
  else if weatherCode = 3 then "Overcast"
  else if weatherCode = 45 then "Foggy"
  else if weatherCode = 48 then "Foggy"
  else if weatherCode = 51 then "Light drizzle"
  else if weatherCode = 53 then "Drizzle"
  else if weatherCode = 55 then "Heavy drizzle"
  else if weatherCode = 61 then "Light rain"
  else if weatherCode = 63 then "Rain"
  else if weatherCode = 65 then "Heavy rain"
  else if weatherCode = 71 then "Light snow"
  else if weatherCode = 73 then "Snow"
  else if weatherCode = 75 then "Heavy snow"
  else if weatherCode = 77 then "Snow grains"
  else if weatherCode = 80 then "Light rain showers"
  else if weatherCode = 81 then "Rain showers"
  else if weatherCode = 82 then "Heavy rain showers"
  else if weatherCode = 85 then "Light snow showers"
  else if weatherCode = 86 then "Snow showers"
  else if weatherCode = 95 then "Thunderstorm"
  else if weatherCode = 96 then "Thunderstorm with hail"
  else if weatherCode = 99 then "Severe thunderstorm"
  else "Unknown"

/-- Models the inner arrow function getWeatherCategory of displayRouteInfo
(app.js lines 740-754); the JS null result is modelled as none.  Note the
source checks the heavy-rain codes 65, 67, 82 only (its comment states
exactly those three), so code 66 takes the Rain branch. -/
def getWeatherCategory (code : ℤ) : Option String :=
  if 95 ≤ code then some "Thunderstorm"
  else if 85 ≤ code ∨ (71 ≤ code ∧ code ≤ 77) then
    if code = 75 ∨ code = 77 ∨ code = 86 then some "Heavy snow" else some "Snow"
  else if 61 ≤ code ∨ (51 ≤ code ∧ code ≤ 57) ∨ (80 ≤ code ∧ code ≤ 82) then
    if code = 65 ∨ code = 67 ∨ code = 82 then some "Heavy rain" else some "Rain"
  else if code = 45 ∨ code = 48 then some "Fog"
  else none

/-- Guard of some explicit rule of getWeatherColor (the disjunction of all the
if-conditions of app.js lines 533-555); a code failing this predicate reaches
the final gray default. -/
def matchesExplicitColorRule (c : ℤ) : Prop :=
  c = 0 ∨ (1 ≤ c ∧ c ≤ 3) ∨ (c = 45 ∨ c = 48) ∨ (51 ≤ c ∧ c ≤ 57)
    ∨ (c = 61 ∨ c = 80) ∨ (c = 63 ∨ c = 81)
    ∨ (c = 65 ∨ c = 66 ∨ c = 67 ∨ c = 82) ∨ (c = 71 ∨ c = 85) ∨ c = 73
    ∨ (c = 75 ∨ c = 77 ∨ c = 86) ∨ 95 ≤ c

instance (c : ℤ) : Decidable (matchesExplicitColorRule c) := by
  unfold matchesExplicitColorRule; infer_instance

/-- Colors appearing in the lookup table of getWeatherColor. -/
def weatherColorTable : List String :=
  ["#4ade80", "#86efac", "#9ca3af", "#60a5fa", "#3b82f6", "#1e40af",
   "#e9d5ff", "#a855f7", "#9333ea", "#ef4444", "#6b7280"]

/-- Categories returned by getWeatherCategory, null included. -/
def weatherCategoryTable : List (Option String) :=
  [none, some "Thunderstorm", some "Heavy snow", some "Snow",
   some "Heavy rain", some "Rain", some "Fog"]

/-- One weather-tagged route point as produced by getWeatherForRoute (app.js
lines 492-499); numeric fields are the imperial-unit values of the forecast
response and time is the projected arrival Date in milliseconds. -/
structure WeatherSample where
  coords : Coord
  temperature : ℚ
  precipitation : ℚ
  weatherCode : ℤ
  windSpeed : ℚ
  time : ℚ

/-- Placeholder sample used for the modelled JS array accesses that the loops
keep in bounds. -/
noncomputable def defaultWeatherSample : WeatherSample :=
  ⟨(0, 0), 0, 0, 0, 0, 0⟩

/-- A bad-weather range that has been opened but not yet closed: the JS
object pushed to currentBadWeather at app.js lines 767-771 (endMile and
endTime are assigned only when the range closes). -/
structure OpenAlert where
  condition : String
  startMile : Option ℚ
  startTime : ℚ

/-- A completed alert range as pushed onto the alerts array of
displayRouteInfo.  Mile positions go through the index/(length-1) ratio and
are therefore NaN (none) when the sample list has length 1. -/
structure AlertRange where
  condition : String
  startMile : Option ℚ
  startTime : ℚ
  endMile : Option ℚ
  endTime : ℚ

/-- Models the forEach loop of displayRouteInfo (app.js lines 760-789) over
the enumerated samples.  State: the open range (currentBadWeather) and the
time of the previous sample, which the source reads as
weatherData[index - 1].time when closing a range (a close can only happen at
index at least 1, so the initial prevTime 0 is never read into a result).
Returns the alerts pushed by the loop, in push order, and the final open
range. -/
def summarizeAux (n : ℕ) (totalDistance : ℚ) :
    List (ℕ × WeatherSample) → Option OpenAlert → ℚ →
    List AlertRange × Option OpenAlert
  | [], current, _ => ([], current)
  | (index, w) :: rest, current, prevTime =>
    let category := getWeatherCategory w.weatherCode
    let mile := (progressFrac index n).map (· * totalDistance)
    match category, current with
    | some cat, none =>
        summarizeAux n totalDistance rest (some ⟨cat, mile, w.time⟩) w.time
    | none, some cur =>
        let r := summarizeAux n totalDistance rest none w.time
        (⟨cur.condition, cur.startMile, cur.startTime, mile, prevTime⟩ :: r.1, r.2)
    | some cat, some cur =>
        if cat ≠ cur.condition then
          let r := summarizeAux n totalDistance rest (some ⟨cat, mile, w.time⟩) w.time
          (⟨cur.condition, cur.startMile, cur.startTime, mile, prevTime⟩ :: r.1, r.2)
        else
          summarizeAux n totalDistance rest current w.time
    | none, none => summarizeAux n totalDistance rest none w.time

/-- Models the alert summarizer of displayRouteInfo (app.js lines 756-796):
run the loop over the enumerated samples, then close a still-open range with
endMile = totalDistance and endTime = the last sample's time (lines 792-796).
An open range implies a non-empty sample list, so the wildcard branch with an
open range and no last sample is unreachable. -/
def summarizeAlerts (weatherData : List WeatherSample) (totalDistance : ℚ) :
    List AlertRange :=
  let r := summarizeAux weatherData.length totalDistance weatherData.enum none 0
  match r.2, weatherData.getLast? with
  | some cur, some wLast =>
      r.1 ++ [⟨cur.condition, cur.startMile, cur.startTime,
              some totalDistance, wLast.time⟩]
  | _, _ => r.1

/-- Models findClosestPointIndex (app.js lines 506-526): scan the route
coordinates keeping the index of the smallest planar Euclidean distance to
the target.  minDist starts as Infinity, modelled as none, so the first
iteration always takes over; later iterations replace it only on a strict
decrease, keeping the earliest minimizing index like the source. -/
noncomputable def findClosestPointIndex (coords : List Coord)
    (targetCoord : Coord) : ℕ :=
  (coords.enum.foldl
    (fun best ic =>
      let dist := Real.sqrt ((ic.2.1 - targetCoord.1) ^ 2
        + (ic.2.2 - targetCoord.2) ^ 2)
      match best.1 with
      | none => (some dist, ic.1)
      | some m => if dist < m then (some dist, ic.1) else best)
    ((none : Option ℝ), 0)).2

/-- One rendered route segment: the GeoJSON feature plus paint color built by
displayRouteWithWeather for a consecutive sample pair (app.js lines 609-664).
The popup time string is modelled by the underlying sample time value. -/
structure RouteSegment where
  coordinates : List Coord
  color : String
  weatherCode : ℤ
  temperature : ℚ
  precipitation : ℚ
  windSpeed : ℚ
  time : ℚ
  description : String

/-- Placeholder segment for modelled JS array accesses. -/
noncomputable def defaultRouteSegment : RouteSegment :=
  ⟨[], "", 0, 0, 0, 0, 0, ""⟩

/-- Models the segment-building loop of displayRouteWithWeather (app.js lines
609-664): one segment per consecutive sample pair i, i+1; the polyline slice
runs between the nearest route indices of the two samples
(slice(startIdx, endIdx + 1)), and every descriptive field and the color come
from the start sample of the pair. -/
noncomputable def buildRouteSegments (routeCoords : List Coord)
    (weatherData : List WeatherSample) : List RouteSegment :=
  (List.range (weatherData.length - 1)).map fun i =>
    let startWeather := weatherData.getD i defaultWeatherSample
    let endWeather := weatherData.getD (i + 1) defaultWeatherSample
    let startIdx := findClosestPointIndex routeCoords startWeather.coords
    let endIdx := findClosestPointIndex routeCoords endWeather.coords
    let segmentCoords := (routeCoords.take (endIdx + 1)).drop startIdx
    { coordinates := segmentCoords
      color := getWeatherColor startWeather.weatherCode startWeather.precipitation
      weatherCode := startWeather.weatherCode
      temperature := startWeather.temperature
      precipitation := startWeather.precipitation
      windSpeed := startWeather.windSpeed
      time := startWeather.time
      description := getWeatherDescription startWeather.weatherCode }

/-- Mapbox layer/source bookkeeping relevant to the claims.  A segment layer
or source with string id route-segment-i is represented by the index i
(toString on naturals is injective, so string identity is index identity);
routeLayer and routeSource stand for the legacy id route.  Weather markers
are cleared unconditionally by clearMap and are not part of any claim. -/
structure MapState where
  segmentLayers : List ℕ
  segmentSources : List ℕ
  routeLayer : Bool
  routeSource : Bool

/-- One iteration of the removal loop shared by clearMap (app.js lines
864-871) and displayRouteWithWeather (lines 596-603): remove the layer
route-segment-i if present, then the source route-segment-i if present. -/
def removeSegmentStep (s : MapState) (i : ℕ) : MapState :=
  let s1 := if i ∈ s.segmentLayers
    then { s with segmentLayers := s.segmentLayers.filter (fun j => decide (j ≠ i)) }
    else s
  if i ∈ s1.segmentSources
    then { s1 with segmentSources := s1.segmentSources.filter (fun j => decide (j ≠ i)) }
    else s1

/-- Models the removal loop shared by clearMap (app.js lines 864-871) and
displayRouteWithWeather (lines 596-603): for i from 0 to 99, remove the
route-segment-i layer and source when present. -/
def removeSegmentRange (st : MapState) : MapState :=
  (List.range 100).foldl removeSegmentStep st

/-- Models clearMap (app.js lines 859-880): remove route-segment layers and
sources for indices 0..99, then the legacy route layer and source. -/
def clearMap (st : MapState) : MapState :=
  { removeSegmentRange st with routeLayer := false, routeSource := false }

/-- One iteration of the segment-adding loop of displayRouteWithWeather:
addSource then addLayer with id route-segment-i (app.js lines 632-664). -/
def addSegmentStep (s : MapState) (i : ℕ) : MapState :=
  { s with segmentSources := s.segmentSources ++ [i],
           segmentLayers := s.segmentLayers ++ [i] }

/-- Models the map-state effect of displayRouteWithWeather (app.js lines
594-664): first the removal loop for indices 0..99, then one addSource and
one addLayer per consecutive weather-sample pair, with ids
route-segment-0 .. route-segment-(N-2). -/
def displayRouteSegments (weatherData : List WeatherSample)
    (st : MapState) : MapState :=
  (List.range (weatherData.length - 1)).foldl addSegmentStep
    (removeSegmentRange st)

/-- Models JS Math.atan2(y, x) on the reals (signed zero subtleties of the
x = 0 axis aside, which no claim touches): the angle of the point (x, y),
in (-pi, pi]. -/
noncomputable def atan2 (y x : ℝ) : ℝ :=
  if 0 < x then Real.arctan (y / x)
  else if x = 0 then
    if 0 < y then Real.pi / 2
    else if y < 0 then -(Real.pi / 2)
    else 0
  else if 0 ≤ y then Real.arctan (y / x) + Real.pi
  else Real.arctan (y / x) - Real.pi

/-- Models the haversine leg computation inlined in the sampling loop of
sampleRoutePoints (app.js lines 424-434), Earth radius R = 6371 km.
Math.sqrt of a negative argument is NaN in JS while Real.sqrt is 0; for
latitudes within -90..90 degrees the radicand a lies in [0, 1] and 1 - a in
[0, 1], where the two semantics agree. -/
noncomputable def haversineDistance (p q : Coord) : ℝ :=
  let dLat := (q.2 - p.2) * Real.pi / 180
  let dLon := (q.1 - p.1) * Real.pi / 180
  let a := Real.sin (dLat / 2) * Real.sin (dLat / 2)
    + Real.cos (p.2 * Real.pi / 180) * Real.cos (q.2 * Real.pi / 180)
      * (Real.sin (dLon / 2) * Real.sin (dLon / 2))
  let c := 2 * atan2 (Real.sqrt a) (Real.sqrt (1 - a))
  6371 * c

/-- One sampler output point (app.js lines 418-421, 440-443, 452-455).  The
JS object holds coords (a reference to one polyline vertex array) and
distance; idx records which vertex the reference points at.  The decoded
polyline vertices are distinct array objects, so the reference identity that
the duplicate-avoidance check at line 451 compares with !== is exactly
vertex-index identity. -/
structure RoutePoint where
  idx : ℕ
  coords : Coord
  distance : ℝ

/-- Placeholder route point for modelled JS array accesses. -/
noncomputable def defaultRoutePoint : RoutePoint := ⟨0, (0, 0), 0⟩

/-- Leg distances of consecutive polyline vertices under the leg-distance
function d: entry j is the distance from vertex j to vertex j + 1. -/
def legDistances (d : Coord → Coord → ℝ) : List Coord → List ℝ
  | [] => []
  | [_] => []
  | a :: b :: rest => d a b :: legDistances d (b :: rest)

/-- Accumulated polyline distance from vertex 0 to vertex v under d. -/
def cumulativeDistance (d : Coord → Coord → ℝ) (coords : List Coord)
    (v : ℕ) : ℝ :=
  ((legDistances d coords).take v).sum

/-- Models the sampling loop of sampleRoutePoints (app.js lines 423-446),
generic in the leg-distance function d (the inlined haversine): prev is the
vertex at position i - 1, the list argument holds the remaining vertices
from position i on, and acc is the accumulated distance not yet consumed by
an emission.  When the accumulator reaches intervalKm the current vertex is
emitted with the accumulator as its distance and the accumulator resets to
0.  Returns the emitted points in order and the final accumulator. -/
noncomputable def samplePass (d : Coord → Coord → ℝ) (intervalKm : ℝ) :
    Coord → List Coord → ℕ → ℝ → List RoutePoint × ℝ
  | _, [], _, acc => ([], acc)
  | prev, c :: rest, i, acc =>
    let acc1 := acc + d prev c
    if intervalKm ≤ acc1 then
      let r := samplePass d intervalKm c rest (i + 1) 0
      (⟨i, c, acc1⟩ :: r.1, r.2)
    else
      samplePass d intervalKm c rest (i + 1) acc1

/-- Models sampleRoutePoints (app.js lines 413-460) generic in the
leg-distance function d: push the first vertex with distance 0, run the
sampling loop, and append the final vertex unless the last pushed point
already references it (the JS !== reference check, which is vertex-index
identity), with distance equal to the last pushed distance plus the
remaining accumulator.  The source indexes coordinates[0] without a guard;
it is never called on an empty polyline and the empty case returns []. -/
noncomputable def sampleRoutePointsD (d : Coord → Coord → ℝ)
    (coordinates : List Coord) (intervalKm : ℝ) : List RoutePoint :=
  match coordinates with
  | [] => []
  | c0 :: rest =>
    let r := samplePass d intervalKm c0 rest 1 0
    let points : List RoutePoint := ⟨0, c0, 0⟩ :: r.1
    if r.1.getLast?.elim 0 RoutePoint.idx = rest.length then points
    else points ++ [⟨rest.length, (c0 :: rest).getLast (List.cons_ne_nil c0 rest),
                    (points.getLast (List.cons_ne_nil _ _)).distance + r.2⟩]

/-- Models sampleRoutePoints (app.js lines 413-460) with its inlined
haversine legs. -/
noncomputable def sampleRoutePoints (coordinates : List Coord)
    (intervalKm : ℝ) : List RoutePoint :=
  sampleRoutePointsD haversineDistance coordinates intervalKm

/-- Helper: an if-then-else of two list members is a list member. -/
theorem ite_mem_of_mem {α : Type} {p : Prop} [Decidable p] {a b : α}
    {l : List α} (h1 : a ∈ l) (h2 : b ∈ l) : (if p then a else b) ∈ l := by
  split <;> assumption

/-! ## Claims about the classifier and the time computations -/

/-- C2: the time projector of getWeatherForRoute at the failing input N = 1
computes progressRatio = 0/0 = NaN, so the single produced arrival time is an
invalid date (none), not the departure timestamp; with N = 3, departure T0 and
duration 3600 s the times are T0, T0 + 1800 s and T0 + 3600 s (milliseconds),
as the claim states for N larger than 1. -/
theorem claim_C2_eval :
    pointArrivalTimes 0 3600 1 = [none]
    ∧ pointArrivalTimes 0 3600 1 ≠ [some 0]
    ∧ pointArrivalTimes 0 3600 3
        = [some 0, some (1800 * 1000), some (3600 * 1000)] := by
  refine ⟨rfl, by decide, ?_⟩
  show List.map _ [0, 1, 2] = _
  simp only [List.map_cons, List.map_nil, progressFrac]
  norm_num

/-- C4 (counterexample): weather code 66 is classified with the heavy-rain
color but its alert category is Rain, not Heavy rain, refuting the claim that
every code in the set 65, 66, 67, 82 yields the category Heavy rain. -/
theorem claim_C4_counterexample :
    getWeatherColor 66 0 = "#1e40af"
    ∧ getWeatherCategory 66 = some "Rain"
    ∧ getWeatherCategory 66 ≠ some "Heavy rain" := by
  refine ⟨rfl, rfl, by decide⟩

/-- C4 (amended): for every weather code in the set 65, 66, 67, 82 the
classifier returns the heavy-rain display color, and codes 65, 67 and 82
return the alert category Heavy rain while code 66 returns Rain; in
particular code 65 yields that color, the description Heavy rain and the
category Heavy rain.  The precipitation argument is arbitrary. -/
theorem claim_C4_amended :
    ∀ p : ℚ,
      getWeatherColor 65 p = "#1e40af" ∧ getWeatherColor 66 p = "#1e40af"
      ∧ getWeatherColor 67 p = "#1e40af" ∧ getWeatherColor 82 p = "#1e40af"
      ∧ getWeatherCategory 65 = some "Heavy rain"
      ∧ getWeatherCategory 67 = some "Heavy rain"
      ∧ getWeatherCategory 82 = some "Heavy rain"
      ∧ getWeatherCategory 66 = some "Rain"
      ∧ getWeatherDescription 65 = "Heavy rain" := by
  intro p
  exact ⟨rfl, rfl, rfl, rfl, rfl, rfl, rfl, rfl, rfl⟩

/-- C5: the forecast-hour index of getWeatherForRoute is the floor of the
elapsed hours clamped into the bounds 0 and returnedHours - 1, hence every
hourly-array access is in bounds for a non-empty hourly array, and a target
time at or beyond the final returned hour clamps to the last index. -/
theorem claim_C5 (t s : ℚ) (n : ℕ) (hn : 1 ≤ n) :
    0 ≤ hourIndex t s n
    ∧ hourIndex t s n ≤ (n : ℤ) - 1
    ∧ (((n : ℚ) - 1) * (1000 * 60 * 60) ≤ t - s → hourIndex t s n = (n : ℤ) - 1) := by
  unfold hourIndex
  refine ⟨le_max_left _ _, ?_, ?_⟩
  · apply max_le
    · omega
    · exact min_le_right _ _
  · intro hbound
    have hfloor : ((n : ℤ) - 1) ≤ ⌊(t - s) / (1000 * 60 * 60)⌋ := by
      rw [Int.le_floor, le_div_iff (by norm_num : (0 : ℚ) < 1000 * 60 * 60)]
      push_cast
      linarith
    have hmin : min ⌊(t - s) / (1000 * 60 * 60)⌋ ((n : ℤ) - 1) = (n : ℤ) - 1 :=
      min_eq_right hfloor
    rw [hmin]
    omega

/-- C5 witness: with 2 returned hours, a start timestamp 0 and a target
exactly at the second hour boundary the index is in bounds and clamps to 1. -/
theorem claim_C5_witness :
    0 ≤ hourIndex 7200000 0 2
    ∧ hourIndex 7200000 0 2 ≤ (2 : ℤ) - 1
    ∧ (((2 : ℚ) - 1) * (1000 * 60 * 60) ≤ 7200000 - 0 →
        hourIndex 7200000 0 2 = (2 : ℤ) - 1) :=
  claim_C5 7200000 0 2 (by norm_num)

/-- C8: the weather classifier is total: codes 0 to 3 always give category
none; every negative code gives the gray color, the Unknown description and
category none; more generally every code matched by no explicit color rule
falls through to that default; and for every integer code whatsoever the
three results are well-defined values drawn from the fixed tables (the
thunderstorm rule has no upper bound, so codes above 99 are matched by it
rather than by the default). -/
theorem claim_C8 :
    (∀ c : ℤ, 0 ≤ c → c ≤ 3 → getWeatherCategory c = none)
    ∧ (∀ c : ℤ, c < 0 → ∀ p : ℚ,
        getWeatherColor c p = "#6b7280"
        ∧ getWeatherDescription c = "Unknown"
        ∧ getWeatherCategory c = none)
    ∧ (∀ c : ℤ, ¬ matchesExplicitColorRule c → ∀ p : ℚ,
        getWeatherColor c p = "#6b7280")
    ∧ (∀ c : ℤ, ∀ p : ℚ, getWeatherColor c p ∈ weatherColorTable
        ∧ getWeatherCategory c ∈ weatherCategoryTable) := by
  refine ⟨?_, ?_, ?_, ?_⟩
  · intro c h0 h3
    unfold getWeatherCategory
    repeat rw [if_neg (by omega)]
  · intro c hc p
    refine ⟨?_, ?_, ?_⟩
    · unfold getWeatherColor
      repeat rw [if_neg (by omega)]
    · unfold getWeatherDescription
      repeat rw [if_neg (by omega)]
    · unfold getWeatherCategory
      repeat rw [if_neg (by omega)]
  · intro c hc p
    unfold matchesExplicitColorRule at hc
    unfold getWeatherColor
    repeat rw [if_neg (by omega)]
  · intro c p
    constructor
    · unfold getWeatherColor
      repeat' apply ite_mem_of_mem
      all_goals simp [weatherColorTable]
    · unfold getWeatherCategory
      repeat' apply ite_mem_of_mem
      all_goals simp [weatherCategoryTable]

/-- C8 witness: concrete instances of the classifier totality claim: code 2
(in 0..3) has category none, and the out-of-range code -5 falls through to
the gray default triple and to the tables. -/
theorem claim_C8_witness :
    getWeatherCategory 2 = none
    ∧ (getWeatherColor (-5) 0 = "#6b7280"
        ∧ getWeatherDescription (-5) = "Unknown"
        ∧ getWeatherCategory (-5) = none)
    ∧ getWeatherColor (-5) 0 = "#6b7280"
    ∧ (getWeatherColor 100 0 ∈ weatherColorTable
        ∧ getWeatherCategory 100 ∈ weatherCategoryTable) :=
  ⟨claim_C8.1 2 (by norm_num) (by norm_num),
   claim_C8.2.1 (-5) (by norm_num) 0,
   claim_C8.2.2.1 (-5) (by decide) 0,
   claim_C8.2.2.2 100 0⟩

/-- C10: the segment color function ignores its precipitation argument: the
returned color depends only on the weather code. -/
theorem claim_C10 (code : ℤ) (p₁ p₂ : ℚ) :
    getWeatherColor code p₁ = getWeatherColor code p₂ := rfl

/-! ## Alert summarizer (C6) -/

/-- Helper: the summarizer loop emits nothing and keeps no open range over
samples whose category is none. -/
theorem summarizeAux_all_none (n : ℕ) (total : ℚ) :
    ∀ (l : List (ℕ × WeatherSample)) (prevT : ℚ),
      (∀ x ∈ l, getWeatherCategory x.2.weatherCode = none) →
      summarizeAux n total l none prevT = ([], none) := by
  intro l
  induction l with
  | nil => intro prevT _; rfl
  | cons x rest ih =>
    intro prevT h
    obtain ⟨index, w⟩ := x
    have hw : getWeatherCategory w.weatherCode = none := h (index, w) (by simp)
    have hrest : ∀ y ∈ rest, getWeatherCategory y.2.weatherCode = none :=
      fun y hy => h y (List.mem_cons_of_mem _ hy)
    simp only [summarizeAux, hw]
    exact ih w.time hrest

/-- C6: a sample sequence all of whose classifier categories are none yields
an empty alert list; and a five-sample sequence with categories A, A, B, B, A
(A and B distinct, both bad) yields exactly the three ranges A, B, A: any
category change, including bad to bad with a different category, closes the
current range and opens a new one. -/
theorem claim_C6 (total : ℚ) :
    (∀ wd : List WeatherSample,
        (∀ w ∈ wd, getWeatherCategory w.weatherCode = none) →
        summarizeAlerts wd total = [])
    ∧ (∀ w1 w2 w3 w4 w5 : WeatherSample, ∀ A B : String,
        getWeatherCategory w1.weatherCode = some A →
        getWeatherCategory w2.weatherCode = some A →
        getWeatherCategory w3.weatherCode = some B →
        getWeatherCategory w4.weatherCode = some B →
        getWeatherCategory w5.weatherCode = some A →
        A ≠ B →
        (summarizeAlerts [w1, w2, w3, w4, w5] total).map AlertRange.condition
          = [A, B, A]) := by
  constructor
  · intro wd hall
    unfold summarizeAlerts
    have h := summarizeAux_all_none wd.length total wd.enum 0 ?_
    · rw [h]
    · intro x hx
      exact hall x.2 (List.snd_mem_of_mem_enum hx)
  · intro w1 w2 w3 w4 w5 A B h1 h2 h3 h4 h5 hAB
    have hBA : B ≠ A := fun h => hAB h.symm
    have henum : ([w1, w2, w3, w4, w5] : List WeatherSample).enum
        = [(0, w1), (1, w2), (2, w3), (3, w4), (4, w5)] := rfl
    unfold summarizeAlerts
    rw [henum]
    simp only [summarizeAux, h1, h2, h3, h4, h5, hAB, hBA, ne_eq,
      not_false_eq_true, not_true_eq_false, if_true, if_false,
      ite_true, ite_false]
    simp [List.getLast?]

/-- C6 witness: code 2 is category none, so a singleton clear sample gives no
alerts; codes 61, 61, 71, 71, 61 have categories Rain, Rain, Snow, Snow,
Rain and give exactly the ranges Rain, Snow, Rain. -/
theorem claim_C6_witness :
    summarizeAlerts [⟨(0, 0), 60, 0, 2, 5, 0⟩] 12 = []
    ∧ (summarizeAlerts
        [⟨(0, 0), 50, 0, 61, 10, 0⟩, ⟨(0, 1), 50, 0, 61, 10, 600⟩,
         ⟨(0, 2), 30, 0, 71, 10, 1200⟩, ⟨(0, 3), 30, 0, 71, 10, 1800⟩,
         ⟨(0, 4), 50, 0, 61, 10, 2400⟩] 100).map AlertRange.condition
      = ["Rain", "Snow", "Rain"] :=
  ⟨(claim_C6 12).1 _ (by
      intro w hw
      rw [List.mem_singleton] at hw
      subst hw
      decide),
   (claim_C6 100).2 _ _ _ _ _ "Rain" "Snow" (by decide) (by decide) (by decide)
     (by decide) (by decide) (by decide)⟩

/-! ## Segment builder (C7) -/

/-- Helper: indexing a map over a range. -/
theorem getD_map_range {α : Type} (n i : ℕ) (f : ℕ → α) (d : α)
    (hi : i < n) : ((List.range n).map f).getD i d = f i := by
  rw [List.getD_eq_getElem?_getD, List.getElem?_map, List.getElem?_range hi]
  rfl

/-- C7: the segment builder produces exactly max(0, N - 1) segments for N
samples, unconditionally: the loop bound weatherData.length - 1 is truncated
natural subtraction, so 0 samples and 1 sample both give 0 segments; and
every descriptive field and the color of each segment i come from sample i,
the start sample of its pair, never from sample i + 1. -/
theorem claim_C7 (routeCoords : List Coord) (weatherData : List WeatherSample)
    (i : ℕ) :
    (buildRouteSegments routeCoords weatherData).length = weatherData.length - 1
    ∧ (i < weatherData.length - 1 →
        ((buildRouteSegments routeCoords weatherData).getD i defaultRouteSegment).color
            = getWeatherColor (weatherData.getD i defaultWeatherSample).weatherCode
                (weatherData.getD i defaultWeatherSample).precipitation
        ∧ ((buildRouteSegments routeCoords weatherData).getD i defaultRouteSegment).weatherCode
            = (weatherData.getD i defaultWeatherSample).weatherCode
        ∧ ((buildRouteSegments routeCoords weatherData).getD i defaultRouteSegment).temperature
            = (weatherData.getD i defaultWeatherSample).temperature
        ∧ ((buildRouteSegments routeCoords weatherData).getD i defaultRouteSegment).precipitation
            = (weatherData.getD i defaultWeatherSample).precipitation
        ∧ ((buildRouteSegments routeCoords weatherData).getD i defaultRouteSegment).windSpeed
            = (weatherData.getD i defaultWeatherSample).windSpeed
        ∧ ((buildRouteSegments routeCoords weatherData).getD i defaultRouteSegment).time
            = (weatherData.getD i defaultWeatherSample).time
        ∧ ((buildRouteSegments routeCoords weatherData).getD i defaultRouteSegment).description
            = getWeatherDescription (weatherData.getD i defaultWeatherSample).weatherCode) := by
  constructor
  · simp [buildRouteSegments]
  · intro hi
    have hget : (buildRouteSegments routeCoords weatherData).getD i defaultRouteSegment
        = ((fun i =>
            let startWeather := weatherData.getD i defaultWeatherSample
            let endWeather := weatherData.getD (i + 1) defaultWeatherSample
            let startIdx := findClosestPointIndex routeCoords startWeather.coords
            let endIdx := findClosestPointIndex routeCoords endWeather.coords
            let segmentCoords := (routeCoords.take (endIdx + 1)).drop startIdx
            ({ coordinates := segmentCoords
               color := getWeatherColor startWeather.weatherCode startWeather.precipitation
               weatherCode := startWeather.weatherCode
               temperature := startWeather.temperature
               precipitation := startWeather.precipitation
               windSpeed := startWeather.windSpeed
               time := startWeather.time
               description := getWeatherDescription startWeather.weatherCode } : RouteSegment)) i) := by
      unfold buildRouteSegments
      exact getD_map_range _ _ _ _ hi
    refine ⟨?_, ?_, ?_, ?_, ?_, ?_, ?_⟩ <;> rw [hget]

/-- C7 witness: zero samples and one sample both give zero segments; two
concrete samples give exactly one segment whose color comes from the first
sample. -/
theorem claim_C7_witness :
    (buildRouteSegments [] ([] : List WeatherSample)).length
      = ([] : List WeatherSample).length - 1
    ∧ (buildRouteSegments [] [⟨(0, 0), 70, 1, 61, 5, 1000⟩]).length
      = ([(⟨(0, 0), 70, 1, 61, 5, 1000⟩ : WeatherSample)] : List WeatherSample).length - 1
    ∧ (buildRouteSegments []
        [⟨(0, 0), 70, 1, 61, 5, 1000⟩, ⟨(1, 1), 30, 2, 71, 9, 2000⟩]).length
      = ([⟨(0, 0), 70, 1, 61, 5, 1000⟩,
          (⟨(1, 1), 30, 2, 71, 9, 2000⟩ : WeatherSample)] : List WeatherSample).length - 1
    ∧ ((buildRouteSegments []
        [⟨(0, 0), 70, 1, 61, 5, 1000⟩, ⟨(1, 1), 30, 2, 71, 9, 2000⟩]).getD 0
          defaultRouteSegment).color
        = getWeatherColor
            (([⟨(0, 0), 70, 1, 61, 5, 1000⟩,
               (⟨(1, 1), 30, 2, 71, 9, 2000⟩ : WeatherSample)] : List WeatherSample).getD 0
              defaultWeatherSample).weatherCode
            (([⟨(0, 0), 70, 1, 61, 5, 1000⟩,
               (⟨(1, 1), 30, 2, 71, 9, 2000⟩ : WeatherSample)] : List WeatherSample).getD 0
              defaultWeatherSample).precipitation := by
  have h0 := claim_C7 [] ([] : List WeatherSample) 0
  have h1 := claim_C7 [] [(⟨(0, 0), 70, 1, 61, 5, 1000⟩ : WeatherSample)] 0
  have h2 := claim_C7 []
    [⟨(0, 0), 70, 1, 61, 5, 1000⟩, ⟨(1, 1), 30, 2, 71, 9, 2000⟩] 0
  exact ⟨h0.1, h1.1, h2.1, (h2.2 (by simp)).1⟩

/-! ## Map clearing (C9) -/

/-- Helper: the removal step deletes exactly index i from the layer list. -/
theorem removeSegmentStep_layers (s : MapState) (i : ℕ) :
    (removeSegmentStep s i).segmentLayers
      = s.segmentLayers.filter (fun j => decide (j ≠ i)) := by
  unfold removeSegmentStep
  by_cases hl : i ∈ s.segmentLayers <;> by_cases hs : i ∈ s.segmentSources <;>
    simp [hl, hs] <;>
    (symm; rw [List.filter_eq_self]; intro j hj; simp; rintro rfl; exact hl hj)

/-- Helper: the removal step deletes exactly index i from the source list. -/
theorem removeSegmentStep_sources (s : MapState) (i : ℕ) :
    (removeSegmentStep s i).segmentSources
      = s.segmentSources.filter (fun j => decide (j ≠ i)) := by
  unfold removeSegmentStep
  by_cases hl : i ∈ s.segmentLayers <;> by_cases hs : i ∈ s.segmentSources <;>
    simp [hl, hs] <;>
    (symm; rw [List.filter_eq_self]; intro j hj; simp; rintro rfl; exact hs hj)

/-- Helper: folding the removal step over a list of indices filters out
exactly those indices from the layer list. -/
theorem foldl_removeStep_layers :
    ∀ (L : List ℕ) (st : MapState),
      (L.foldl removeSegmentStep st).segmentLayers
        = st.segmentLayers.filter (fun j => decide (j ∉ L)) := by
  intro L
  induction L with
  | nil =>
    intro st
    simp
  | cons a L ih =>
    intro st
    rw [List.foldl_cons, ih, removeSegmentStep_layers, List.filter_filter]
    apply List.filter_congr
    intro x _
    by_cases hxa : x = a <;> by_cases hxL : x ∈ L <;> simp [hxa, hxL]

/-- Helper: folding the removal step over a list of indices filters out
exactly those indices from the source list. -/
theorem foldl_removeStep_sources :
    ∀ (L : List ℕ) (st : MapState),
      (L.foldl removeSegmentStep st).segmentSources
        = st.segmentSources.filter (fun j => decide (j ∉ L)) := by
  intro L
  induction L with
  | nil =>
    intro st
    simp
  | cons a L ih =>
    intro st
    rw [List.foldl_cons, ih, removeSegmentStep_sources, List.filter_filter]
    apply List.filter_congr
    intro x _
    by_cases hxa : x = a <;> by_cases hxL : x ∈ L <;> simp [hxa, hxL]

/-- Helper: clearMap keeps exactly the segment layers of index at least 100. -/
theorem clearMap_layers (st : MapState) :
    (clearMap st).segmentLayers
      = st.segmentLayers.filter (fun j => decide (100 ≤ j)) := by
  unfold clearMap
  dsimp only
  unfold removeSegmentRange
  rw [foldl_removeStep_layers]
  apply List.filter_congr
  intro x _
  simp [List.mem_range]

/-- Helper: clearMap keeps exactly the segment sources of index at least 100. -/
theorem clearMap_sources (st : MapState) :
    (clearMap st).segmentSources
      = st.segmentSources.filter (fun j => decide (100 ≤ j)) := by
  unfold clearMap
  dsimp only
  unfold removeSegmentRange
  rw [foldl_removeStep_sources]
  apply List.filter_congr
  intro x _
  simp [List.mem_range]

/-- Helper: the segment-adding loop appends its indices to the layer list. -/
theorem foldl_addStep_layers :
    ∀ (L : List ℕ) (st : MapState),
      (L.foldl addSegmentStep st).segmentLayers = st.segmentLayers ++ L := by
  intro L
  induction L with
  | nil => intro st; simp
  | cons a L ih =>
    intro st
    rw [List.foldl_cons, ih]
    show (st.segmentLayers ++ [a]) ++ L = _
    rw [← List.append_cons]

/-- C9 (counterexample): rendering a route with 102 weather samples creates
101 segment layers route-segment-0 .. route-segment-100 on an empty map, and
the clear step that precedes a new pipeline invocation then leaves layer
route-segment-100 on the map, so clearMap does not remove all rendered
route-segment layers when the previous route had more than 100 segments. -/
theorem claim_C9_counterexample :
    (clearMap (displayRouteSegments
        (List.replicate 102 defaultWeatherSample)
        ⟨[], [], false, false⟩)).segmentLayers = [100]
    ∧ ([100] : List ℕ) ≠ [] := by
  constructor
  · have hdisp : (displayRouteSegments
        (List.replicate 102 defaultWeatherSample)
        ⟨[], [], false, false⟩).segmentLayers = List.range 101 := by
      unfold displayRouteSegments
      rw [show (List.replicate 102 defaultWeatherSample).length - 1 = 101 by simp]
      rw [foldl_addStep_layers]
      unfold removeSegmentRange
      rw [foldl_removeStep_layers]
      simp
    rw [clearMap_layers, hdisp]
    decide
  · decide

/-- C9 (amended): clearMap removes exactly the route-segment layers and
sources with index below 100, keeping any with index 100 or more; hence the
map is fully cleared whenever the previously rendered route had at most 100
segments. -/
theorem claim_C9_amended (st : MapState) :
    (clearMap st).segmentLayers
        = st.segmentLayers.filter (fun j => decide (100 ≤ j))
    ∧ (clearMap st).segmentSources
        = st.segmentSources.filter (fun j => decide (100 ≤ j))
    ∧ ((∀ j ∈ st.segmentLayers, j < 100) → (clearMap st).segmentLayers = []) := by
  refine ⟨clearMap_layers st, clearMap_sources st, ?_⟩
  intro hall
  rw [clearMap_layers]
  rw [List.filter_eq_nil_iff]
  intro j hj
  have := hall j hj
  simp
  omega

/-- C9 witness: a map whose segment layers all have index below 100 is fully
cleared by clearMap. -/
theorem claim_C9_amended_witness :
    (clearMap ⟨[5, 99], [7], true, false⟩).segmentLayers = [] :=
  (claim_C9_amended ⟨[5, 99], [7], true, false⟩).2.2 (by decide)

/-! ## Route sampler (C1, C3) -/

/-- Helper: unfolding equation of the sampling loop on a non-empty vertex
list. -/
theorem samplePass_cons (d : Coord → Coord → ℝ) (I : ℝ) (prev c : Coord)
    (rest : List Coord) (i : ℕ) (acc : ℝ) :
    samplePass d I prev (c :: rest) i acc
      = if I ≤ acc + d prev c then
          (⟨i, c, acc + d prev c⟩ :: (samplePass d I c rest (i + 1) 0).1,
           (samplePass d I c rest (i + 1) 0).2)
        else samplePass d I c rest (i + 1) (acc + d prev c) := rfl

/-- Helper: membership in an enumerated-from list gives the index bound and
the positional lookup. -/
theorem mem_enumFrom_spec {α : Type} :
    ∀ (l : List α) (j k : ℕ) (x : α), (k, x) ∈ l.enumFrom j →
      j ≤ k ∧ l[k - j]? = some x := by
  intro l
  induction l with
  | nil => intro j k x h; simp [List.enumFrom] at h
  | cons a l ih =>
    intro j k x h
    rw [List.enumFrom_cons] at h
    rcases List.mem_cons.mp h with h1 | h1
    · injection h1 with h1a h1b
      subst h1a
      subst h1b
      simp
    · obtain ⟨hj, hget⟩ := ih (j + 1) k x h1
      refine ⟨by omega, ?_⟩
      have hk : k - j = (k - (j + 1)) + 1 := by omega
      rw [hk, List.getElem?_cons_succ]
      exact hget

/-- Helper: every point emitted by the sampling loop has distance at least
the interval (it is emitted under the accumulator check of app.js:439). -/
theorem samplePass_ge (d : Coord → Coord → ℝ) (I : ℝ) :
    ∀ (rest : List Coord) (prev : Coord) (i : ℕ) (acc : ℝ) (e : RoutePoint),
      e ∈ (samplePass d I prev rest i acc).1 → I ≤ e.distance := by
  intro rest
  induction rest with
  | nil => intro prev i acc e he; simp [samplePass] at he
  | cons c rest ih =>
    intro prev i acc e he
    rw [samplePass_cons] at he
    by_cases hb : I ≤ acc + d prev c
    · rw [if_pos hb] at he
      dsimp only at he
      rcases List.mem_cons.mp he with h1 | h1
      · rw [h1]; exact hb
      · exact ih c (i + 1) 0 e h1
    · rw [if_neg hb] at he
      exact ih c (i + 1) (acc + d prev c) e he

/-- Helper: sum of a prefix of a cons list of leg distances. -/
theorem take_shift_sum (x : ℝ) (L : List ℝ) (m : ℕ) :
    ((x :: L).take (m + 1)).sum = x + (L.take m).sum := by
  simp

/-- Helper: master specification of the sampling loop.  The emitted
(index, coords) pairs form a sublist of the enumerated remaining vertices;
the first emitted distance is the incoming accumulator plus the legs up to
its vertex; and each later emitted distance is at least the interval and
equals the leg sum between its vertex and the previous emitted vertex. -/
theorem samplePass_spec (d : Coord → Coord → ℝ) (I : ℝ) :
    ∀ (rest : List Coord) (prev : Coord) (i : ℕ) (acc : ℝ),
      (((samplePass d I prev rest i acc).1.map fun e => (e.idx, e.coords)).Sublist
          (rest.enumFrom i))
      ∧ (∀ e₁ es', (samplePass d I prev rest i acc).1 = e₁ :: es' →
          e₁.distance
            = acc + ((legDistances d (prev :: rest)).take (e₁.idx + 1 - i)).sum)
      ∧ List.Chain'
          (fun e e' => i ≤ e.idx ∧ e.idx < e'.idx ∧ I ≤ e'.distance ∧
            e'.distance
              = ((legDistances d (prev :: rest)).take (e'.idx + 1 - i)).sum
                - ((legDistances d (prev :: rest)).take (e.idx + 1 - i)).sum)
          (samplePass d I prev rest i acc).1 := by
  intro rest
  induction rest with
  | nil =>
    intro prev i acc
    refine ⟨by simp [samplePass, List.enumFrom], ?_, by simp [samplePass]⟩
    intro e₁ es' h
    simp [samplePass] at h
  | cons c rest ih =>
    intro prev i acc
    have hL : legDistances d (prev :: c :: rest)
        = d prev c :: legDistances d (c :: rest) := rfl
    by_cases hb : I ≤ acc + d prev c
    · obtain ⟨iha, ihb, ihc⟩ := ih c (i + 1) 0
      refine ⟨?_, ?_, ?_⟩
      · rw [samplePass_cons, if_pos hb]
        dsimp only
        rw [List.map_cons, List.enumFrom_cons]
        exact List.Sublist.cons₂ _ iha
      · intro e₁ es' h
        rw [samplePass_cons, if_pos hb] at h
        dsimp only at h
        injection h with h1 h2
        subst h1
        dsimp only
        rw [hL]
        have h3 : i + 1 - i = 0 + 1 := by omega
        rw [h3, take_shift_sum]
        simp
      · rw [samplePass_cons, if_pos hb]
        dsimp only
        rw [List.chain'_cons']
        constructor
        · intro e₂ he₂
          cases hr : (samplePass d I c rest (i + 1) 0).1 with
          | nil => rw [hr] at he₂; simp at he₂
          | cons x t =>
            rw [hr] at he₂
            simp only [List.head?_cons, Option.mem_def, Option.some.injEq] at he₂
            subst he₂
            have hxmem : (x.idx, x.coords) ∈ rest.enumFrom (i + 1) := by
              apply iha.subset
              rw [hr]
              exact List.mem_map_of_mem _ (List.mem_cons_self x t)
            have hxb := (mem_enumFrom_spec rest (i + 1) x.idx x.coords hxmem).1
            have hxd := ihb x t hr
            have hxg : I ≤ x.distance :=
              samplePass_ge d I rest c (i + 1) 0 x
                (by rw [hr]; exact List.mem_cons_self x t)
            refine ⟨le_refl i, by dsimp only; omega, hxg, ?_⟩
            rw [hxd, hL]
            have h1 : x.idx + 1 - i = (x.idx + 1 - (i + 1)) + 1 := by omega
            have h2 : i + 1 - i = 0 + 1 := by omega
            rw [h1, h2, take_shift_sum, take_shift_sum]
            simp
        · refine List.Chain'.imp ?_ ihc
          intro a b hab
          obtain ⟨h1, h2, h3, h4⟩ := hab
          refine ⟨by omega, h2, h3, ?_⟩
          rw [hL]
          have ha1 : a.idx + 1 - i = (a.idx + 1 - (i + 1)) + 1 := by omega
          have hb1 : b.idx + 1 - i = (b.idx + 1 - (i + 1)) + 1 := by omega
          rw [ha1, hb1, take_shift_sum, take_shift_sum, h4]
          ring
    · obtain ⟨iha, ihb, ihc⟩ := ih c (i + 1) (acc + d prev c)
      refine ⟨?_, ?_, ?_⟩
      · rw [samplePass_cons, if_neg hb]
        rw [List.enumFrom_cons]
        exact List.Sublist.cons _ iha
      · intro e₁ es' h
        rw [samplePass_cons, if_neg hb] at h
        have hd := ihb e₁ es' h
        have hmem : (e₁.idx, e₁.coords) ∈ rest.enumFrom (i + 1) := by
          apply iha.subset
          rw [h]
          exact List.mem_map_of_mem _ (List.mem_cons_self e₁ es')
        have hge := (mem_enumFrom_spec rest (i + 1) e₁.idx e₁.coords hmem).1
        rw [hd, hL]
        have h1 : e₁.idx + 1 - i = (e₁.idx + 1 - (i + 1)) + 1 := by omega
        rw [h1, take_shift_sum]
        ring
      · rw [samplePass_cons, if_neg hb]
        refine List.Chain'.imp ?_ ihc
        intro a b hab
        obtain ⟨h1, h2, h3, h4⟩ := hab
        refine ⟨by omega, h2, h3, ?_⟩
        rw [hL]
        have ha1 : a.idx + 1 - i = (a.idx + 1 - (i + 1)) + 1 := by omega
        have hb1 : b.idx + 1 - i = (b.idx + 1 - (i + 1)) + 1 := by omega
        rw [ha1, hb1, take_shift_sum, take_shift_sum, h4]
        ring


/-- Helper: haversine distance of two points on the same meridian with a
non-negative latitude difference of at most 90 degrees is the arc length of
the latitude difference. -/
theorem haversine_same_lon (lon lat1 lat2 : ℝ) (h1 : lat1 ≤ lat2)
    (h2 : lat2 - lat1 ≤ 90) :
    haversineDistance (lon, lat1) (lon, lat2)
      = 6371 * ((lat2 - lat1) * Real.pi / 180) := by
  have hπ := Real.pi_pos
  have h3 : 0 ≤ lat2 - lat1 := by linarith
  unfold haversineDistance
  dsimp only
  simp only [sub_self, zero_mul, zero_div, Real.sin_zero, mul_zero, add_zero]
  set t := (lat2 - lat1) * Real.pi / 180 / 2 with ht
  have ht0 : 0 ≤ t := by
    rw [ht]
    apply div_nonneg _ (by norm_num)
    apply div_nonneg _ (by norm_num)
    exact mul_nonneg h3 hπ.le
  have htle : t ≤ Real.pi / 4 := by
    rw [ht]
    nlinarith [mul_le_mul_of_nonneg_right h2 hπ.le]
  have htlt : t < Real.pi / 2 := lt_of_le_of_lt htle (by linarith)
  have hs : Real.sqrt (Real.sin t * Real.sin t) = Real.sin t :=
    Real.sqrt_mul_self
      (Real.sin_nonneg_of_nonneg_of_le_pi ht0 (by linarith))
  have hc : 1 - Real.sin t * Real.sin t = Real.cos t * Real.cos t := by
    nlinarith [Real.sin_sq_add_cos_sq t]
  have hcpos : 0 < Real.cos t :=
    Real.cos_pos_of_mem_Ioo ⟨by linarith, htlt⟩
  have hc2 : Real.sqrt (Real.cos t * Real.cos t) = Real.cos t :=
    Real.sqrt_mul_self hcpos.le
  rw [hs, hc, hc2]
  unfold atan2
  rw [if_pos hcpos, ← Real.tan_eq_sin_div_cos,
    Real.arctan_tan (by linarith) htlt, ht]
  ring

/-- Helper: the first scenario leg, (0,0) to (0,0.05). -/
theorem haversine_leg1 :
    haversineDistance ((0 : ℝ), (0 : ℝ)) ((0 : ℝ), 0.05)
      = 6371 * (0.05 * Real.pi / 180) := by
  have h := haversine_same_lon 0 0 0.05 (by norm_num) (by norm_num)
  rw [h]
  norm_num

/-- Helper: the second scenario leg, (0,0.05) to (0,0.1). -/
theorem haversine_leg2 :
    haversineDistance ((0 : ℝ), 0.05) ((0 : ℝ), 0.1)
      = 6371 * (0.05 * Real.pi / 180) := by
  have h := haversine_same_lon 0 0.05 0.1 (by norm_num) (by norm_num)
  rw [h]
  norm_num

/-- Helper: numeric bounds on the scenario leg length, about 5.5597 km. -/
theorem scenario_leg_bounds :
    5.5 < 6371 * ((0.05 : ℝ) * Real.pi / 180)
    ∧ 6371 * ((0.05 : ℝ) * Real.pi / 180) < 5.6 := by
  have h1 := Real.pi_gt_3141592
  have h2 := Real.pi_lt_3141593
  constructor <;> nlinarith

/-- Helper: unfolding equation of the sampler on a non-empty polyline. -/
theorem sampleRoutePointsD_cons (d : Coord → Coord → ℝ) (c0 : Coord)
    (rest : List Coord) (I : ℝ) :
    sampleRoutePointsD d (c0 :: rest) I
      = if (samplePass d I c0 rest 1 0).1.getLast?.elim 0 RoutePoint.idx
            = rest.length
        then ⟨0, c0, 0⟩ :: (samplePass d I c0 rest 1 0).1
        else (⟨0, c0, 0⟩ :: (samplePass d I c0 rest 1 0).1)
          ++ [⟨rest.length, (c0 :: rest).getLast (List.cons_ne_nil c0 rest),
              ((⟨0, c0, 0⟩ :: (samplePass d I c0 rest 1 0).1 : List RoutePoint).getLast
                  (List.cons_ne_nil _ _)).distance
                + (samplePass d I c0 rest 1 0).2⟩] := rfl

/-- Helper: along the sampler output before the duplicate-avoidance point,
every point after the first has distance at least the interval... no: every
adjacent pair satisfies: the later distance is at least the interval and
equals the accumulated polyline distance between the two vertices. -/
theorem sampler_chain (d : Coord → Coord → ℝ) (I : ℝ) (c0 : Coord)
    (rest : List Coord) :
    List.Chain'
      (fun a b => I ≤ b.distance ∧
        b.distance = cumulativeDistance d (c0 :: rest) b.idx
          - cumulativeDistance d (c0 :: rest) a.idx)
      (⟨0, c0, 0⟩ :: (samplePass d I c0 rest 1 0).1) := by
  obtain ⟨ha, hb, hc⟩ := samplePass_spec d I rest c0 1 0
  rw [List.chain'_cons']
  constructor
  · intro e₂ he₂
    cases hr : (samplePass d I c0 rest 1 0).1 with
    | nil => rw [hr] at he₂; simp at he₂
    | cons x t =>
      rw [hr] at he₂
      simp only [List.head?_cons, Option.mem_def, Option.some.injEq] at he₂
      subst he₂
      have hxd := hb x t hr
      have hxg : I ≤ x.distance :=
        samplePass_ge d I rest c0 1 0 x (by rw [hr]; exact List.mem_cons_self x t)
      refine ⟨hxg, ?_⟩
      rw [hxd]
      unfold cumulativeDistance
      dsimp only
      rw [Nat.add_sub_cancel]
      simp
  · refine List.Chain'.imp ?_ hc
    intro a b hab
    obtain ⟨h1, h2, h3, h4⟩ := hab
    refine ⟨h3, ?_⟩
    rw [h4]
    unfold cumulativeDistance
    rw [Nat.add_sub_cancel, Nat.add_sub_cancel]

/-- Helper: in-bounds getD is get. -/
theorem getD_eq_get {α : Type} (l : List α) (n : ℕ) (dflt : α)
    (h : n < l.length) : l.getD n dflt = l.get ⟨n, h⟩ := by
  rw [List.getD_eq_getElem?_getD, List.getElem?_eq_getElem h]
  rfl

/-- Helper: getD of an append, index inside the left part. -/
theorem getD_append_left {α : Type} (l₁ l₂ : List α) (n : ℕ) (dflt : α)
    (h : n < l₁.length) :
    (l₁ ++ l₂).getD n dflt = l₁.getD n dflt := by
  rw [List.getD_eq_getElem?_getD, List.getD_eq_getElem?_getD,
    List.getElem?_append, if_pos h]

/-- Helper: any adjacent sampler-output pair other than the final one spans
at least the interval, and the later point's distance field is exactly the
accumulated polyline distance between the two referenced vertices. -/
theorem sampler_adjacent (d : Coord → Coord → ℝ) (coords : List Coord)
    (I : ℝ) (k : ℕ)
    (hk : k + 3 ≤ (sampleRoutePointsD d coords I).length) :
    I ≤ ((sampleRoutePointsD d coords I).getD (k + 1) defaultRoutePoint).distance
    ∧ ((sampleRoutePointsD d coords I).getD (k + 1) defaultRoutePoint).distance
      = cumulativeDistance d coords
          (((sampleRoutePointsD d coords I).getD (k + 1) defaultRoutePoint).idx)
        - cumulativeDistance d coords
          (((sampleRoutePointsD d coords I).getD k defaultRoutePoint).idx) := by
  cases coords with
  | nil => simp [sampleRoutePointsD] at hk
  | cons c0 rest =>
    have hchain := sampler_chain d I c0 rest
    rw [sampleRoutePointsD_cons] at hk ⊢
    by_cases hidx : (samplePass d I c0 rest 1 0).1.getLast?.elim 0 RoutePoint.idx
        = rest.length
    · rw [if_pos hidx] at hk ⊢
      have hklt : k < (⟨0, c0, 0⟩ :: (samplePass d I c0 rest 1 0).1 : List RoutePoint).length - 1 := by
        omega
      have hS := List.chain'_iff_get.mp hchain k hklt
      rw [getD_eq_get _ (k + 1) _ (by omega), getD_eq_get _ k _ (by omega)]
      exact hS
    · rw [if_neg hidx] at hk ⊢
      rw [List.length_append, List.length_singleton] at hk
      have hlt1 : k + 1 < (⟨0, c0, 0⟩ :: (samplePass d I c0 rest 1 0).1 : List RoutePoint).length := by
        omega
      rw [getD_append_left _ _ (k + 1) _ hlt1, getD_append_left _ _ k _ (by omega)]
      have hklt : k < (⟨0, c0, 0⟩ :: (samplePass d I c0 rest 1 0).1 : List RoutePoint).length - 1 := by
        omega
      have hS := List.chain'_iff_get.mp hchain k hklt
      rw [getD_eq_get _ (k + 1) _ (by omega), getD_eq_get _ k _ (by omega)]
      exact hS

/-- Helper: full evaluation of the sampler on the scenario polyline
[(0,0), (0,0.05), (0,0.1)] with a 5 km interval: both legs measure
6371 * 0.05 * pi / 180, about 5.56 km, so both trigger an emission, and the
final vertex is already the last emitted point. -/
theorem scenario_eval :
    sampleRoutePoints [((0 : ℝ), (0 : ℝ)), ((0 : ℝ), 0.05), ((0 : ℝ), 0.1)] 5
      = [⟨0, ((0 : ℝ), (0 : ℝ)), 0⟩,
         ⟨1, ((0 : ℝ), 0.05), 6371 * (0.05 * Real.pi / 180)⟩,
         ⟨2, ((0 : ℝ), 0.1), 6371 * (0.05 * Real.pi / 180)⟩] := by
  have hbound : (5 : ℝ) ≤ 0 + 6371 * (0.05 * Real.pi / 180) := by
    have := Real.pi_gt_3141592
    nlinarith
  have e3 : samplePass haversineDistance 5 ((0 : ℝ), 0.1) [] 3 0 = ([], 0) := rfl
  have e2 : samplePass haversineDistance 5 ((0 : ℝ), 0.05) [((0 : ℝ), 0.1)] 2 0
      = ([⟨2, ((0 : ℝ), 0.1), 0 + 6371 * (0.05 * Real.pi / 180)⟩], 0) := by
    rw [samplePass_cons, haversine_leg2, if_pos hbound, e3]
  have e1 : samplePass haversineDistance 5 ((0 : ℝ), (0 : ℝ))
        [((0 : ℝ), 0.05), ((0 : ℝ), 0.1)] 1 0
      = ([⟨1, ((0 : ℝ), 0.05), 0 + 6371 * (0.05 * Real.pi / 180)⟩,
          ⟨2, ((0 : ℝ), 0.1), 0 + 6371 * (0.05 * Real.pi / 180)⟩], 0) := by
    rw [samplePass_cons, haversine_leg1, if_pos hbound, e2]
  unfold sampleRoutePoints
  rw [sampleRoutePointsD_cons, e1]
  rw [if_pos (by simp [List.getLast?_cons_cons, List.getLast?_singleton])]
  simp [zero_add]

/-- C1 (counterexample): on the polyline [(0,0), (0,0.05), (0,0.1)] with a
5 km interval the sampler emits 3 points whose distance fields are 0, d, d
with d = 6371 * 0.05 * pi / 180 in (5.5, 5.6): the second and third values
are equal, so the sequence is not strictly increasing, and the final value
is below 5.6, not the cumulative ~11.1 km the claim states. -/
theorem claim_C1_counterexample :
    (sampleRoutePoints [((0 : ℝ), (0 : ℝ)), ((0 : ℝ), 0.05), ((0 : ℝ), 0.1)] 5).map
        RoutePoint.distance
      = [0, 6371 * (0.05 * Real.pi / 180), 6371 * (0.05 * Real.pi / 180)]
    ∧ ¬ List.Chain' (fun x y => x < y)
        ((sampleRoutePoints [((0 : ℝ), (0 : ℝ)), ((0 : ℝ), 0.05), ((0 : ℝ), 0.1)] 5).map
          RoutePoint.distance)
    ∧ 5.5 < 6371 * ((0.05 : ℝ) * Real.pi / 180)
    ∧ 6371 * ((0.05 : ℝ) * Real.pi / 180) < 5.6 := by
  refine ⟨by rw [scenario_eval]; rfl, ?_, scenario_leg_bounds.1, scenario_leg_bounds.2⟩
  rw [scenario_eval]
  intro h
  simp only [List.map_cons, List.map_nil] at h
  rw [List.chain'_cons, List.chain'_cons] at h
  exact lt_irrefl _ h.2.1

/-- C1 (amended): a sampler output point that is neither the first point nor
part of the final pair carries as its distance the accumulated haversine
polyline distance since the previous output point (the accumulator at its
emission, reset to 0 each time), not the cumulative distance from the route
start; on the scenario polyline [(0,0), (0,0.05), (0,0.1)] with interval
5 km the three points carry distances 0, d, d with d = 6371 * 0.05 * pi/180
(about 5.56 km). -/
theorem claim_C1_amended (coords : List Coord) (intervalKm : ℝ) (k : ℕ)
    (hk : k + 3 ≤ (sampleRoutePoints coords intervalKm).length) :
    ((sampleRoutePoints coords intervalKm).getD (k + 1) defaultRoutePoint).distance
      = cumulativeDistance haversineDistance coords
          (((sampleRoutePoints coords intervalKm).getD (k + 1) defaultRoutePoint).idx)
        - cumulativeDistance haversineDistance coords
          (((sampleRoutePoints coords intervalKm).getD k defaultRoutePoint).idx)
    ∧ (sampleRoutePoints [((0 : ℝ), (0 : ℝ)), ((0 : ℝ), 0.05), ((0 : ℝ), 0.1)] 5).map
        RoutePoint.distance
      = [0, 6371 * (0.05 * Real.pi / 180), 6371 * (0.05 * Real.pi / 180)] := by
  refine ⟨(sampler_adjacent haversineDistance coords intervalKm k hk).2, ?_⟩
  rw [scenario_eval]
  rfl

/-- C1 witness: the amended statement at the scenario input, pair (0, 1). -/
theorem claim_C1_witness :
    ((sampleRoutePoints [((0 : ℝ), (0 : ℝ)), ((0 : ℝ), 0.05), ((0 : ℝ), 0.1)] 5).getD 1
        defaultRoutePoint).distance
      = cumulativeDistance haversineDistance
          [((0 : ℝ), (0 : ℝ)), ((0 : ℝ), 0.05), ((0 : ℝ), 0.1)]
          (((sampleRoutePoints [((0 : ℝ), (0 : ℝ)), ((0 : ℝ), 0.05), ((0 : ℝ), 0.1)] 5).getD 1
              defaultRoutePoint).idx)
        - cumulativeDistance haversineDistance
          [((0 : ℝ), (0 : ℝ)), ((0 : ℝ), 0.05), ((0 : ℝ), 0.1)]
          (((sampleRoutePoints [((0 : ℝ), (0 : ℝ)), ((0 : ℝ), 0.05), ((0 : ℝ), 0.1)] 5).getD 0
              defaultRoutePoint).idx)
    ∧ (sampleRoutePoints [((0 : ℝ), (0 : ℝ)), ((0 : ℝ), 0.05), ((0 : ℝ), 0.1)] 5).map
        RoutePoint.distance
      = [0, 6371 * (0.05 * Real.pi / 180), 6371 * (0.05 * Real.pi / 180)] :=
  claim_C1_amended [((0 : ℝ), (0 : ℝ)), ((0 : ℝ), 0.05), ((0 : ℝ), 0.1)] 5 0
    (by rw [scenario_eval]; simp)

/-- C3: for every non-empty polyline and positive interval the sampler
output is non-empty, starts at the first polyline coordinate, ends at the
last polyline coordinate, and every adjacent output pair except possibly the
final one spans at least the interval in accumulated polyline (haversine,
R = 6371) distance between the referenced vertices. -/
theorem claim_C3 (coords : List Coord) (intervalKm : ℝ)
    (hne : coords ≠ []) (hpos : 0 < intervalKm) :
    sampleRoutePoints coords intervalKm ≠ []
    ∧ (sampleRoutePoints coords intervalKm).head?.map RoutePoint.coords
        = coords.head?
    ∧ (sampleRoutePoints coords intervalKm).getLast?.map RoutePoint.coords
        = coords.getLast?
    ∧ ∀ k, k + 3 ≤ (sampleRoutePoints coords intervalKm).length →
        intervalKm ≤
          cumulativeDistance haversineDistance coords
            (((sampleRoutePoints coords intervalKm).getD (k + 1) defaultRoutePoint).idx)
          - cumulativeDistance haversineDistance coords
            (((sampleRoutePoints coords intervalKm).getD k defaultRoutePoint).idx) := by
  obtain ⟨c0, rest, rfl⟩ : ∃ c0 rest, coords = c0 :: rest := by
    cases coords with
    | nil => exact absurd rfl hne
    | cons a l => exact ⟨a, l, rfl⟩
  unfold sampleRoutePoints
  refine ⟨?_, ?_, ?_, ?_⟩
  · rw [sampleRoutePointsD_cons]
    split_ifs <;> simp
  · rw [sampleRoutePointsD_cons]
    split_ifs
    · simp
    · rw [List.cons_append]
      simp
  · rw [sampleRoutePointsD_cons]
    by_cases hidx : (samplePass haversineDistance intervalKm c0 rest 1 0).1.getLast?.elim 0
        RoutePoint.idx = rest.length
    · rw [if_pos hidx]
      cases hr : (samplePass haversineDistance intervalKm c0 rest 1 0).1 with
      | nil =>
        rw [hr] at hidx
        simp only [List.getLast?_nil] at hidx
        have hrest : rest = [] := List.eq_nil_of_length_eq_zero (by
          dsimp only [Option.elim] at hidx
          omega)
        subst hrest
        simp
      | cons x t =>
        rw [hr, List.getLast?_eq_getLast _ (List.cons_ne_nil x t)] at hidx
        dsimp only [Option.elim] at hidx
        rw [List.getLast?_cons_cons,
          List.getLast?_eq_getLast _ (List.cons_ne_nil x t)]
        obtain ⟨ha, -, -⟩ := samplePass_spec haversineDistance intervalKm rest c0 1 0
        set e := (x :: t).getLast (List.cons_ne_nil x t) with he
        have hmem : (e.idx, e.coords) ∈ rest.enumFrom 1 := by
          apply ha.subset
          rw [hr]
          exact List.mem_map_of_mem _ (List.getLast_mem (List.cons_ne_nil x t))
        obtain ⟨hge, hgetE⟩ := mem_enumFrom_spec rest 1 e.idx e.coords hmem
        have hrne : rest ≠ [] := by
          intro h0
          rw [h0] at hidx
          simp at hidx
          omega
        obtain ⟨r0, rrest, rfl⟩ : ∃ r0 rrest, rest = r0 :: rrest := by
          cases rest with
          | nil => exact absurd rfl hrne
          | cons a l => exact ⟨a, l, rfl⟩
        rw [List.getLast?_cons_cons, List.getLast?_eq_getElem?]
        rw [hidx] at hgetE
        rw [Option.map_some']
        exact hgetE.symm
    · rw [if_neg hidx]
      rw [List.getLast?_concat, Option.map_some']
      rw [List.getLast?_eq_getLast _ (List.cons_ne_nil c0 rest)]
  · intro k hk
    have h := sampler_adjacent haversineDistance (c0 :: rest) intervalKm k hk
    rw [← h.2]
    exact h.1

/-- C3 witness: the endpoint facts at a singleton polyline with interval 1,
and the spacing fact at the scenario polyline with interval 5, pair (0, 1),
which spans about 5.56 km, at least the 5 km interval. -/
theorem claim_C3_witness :
    sampleRoutePoints [((0 : ℝ), (0 : ℝ))] 1 ≠ []
    ∧ (sampleRoutePoints [((0 : ℝ), (0 : ℝ))] 1).head?.map RoutePoint.coords
        = ([((0 : ℝ), (0 : ℝ))] : List Coord).head?
    ∧ (sampleRoutePoints [((0 : ℝ), (0 : ℝ))] 1).getLast?.map RoutePoint.coords
        = ([((0 : ℝ), (0 : ℝ))] : List Coord).getLast?
    ∧ (5 : ℝ) ≤
        cumulativeDistance haversineDistance
          [((0 : ℝ), (0 : ℝ)), ((0 : ℝ), 0.05), ((0 : ℝ), 0.1)]
          (((sampleRoutePoints [((0 : ℝ), (0 : ℝ)), ((0 : ℝ), 0.05), ((0 : ℝ), 0.1)] 5).getD 1
              defaultRoutePoint).idx)
        - cumulativeDistance haversineDistance
          [((0 : ℝ), (0 : ℝ)), ((0 : ℝ), 0.05), ((0 : ℝ), 0.1)]
          (((sampleRoutePoints [((0 : ℝ), (0 : ℝ)), ((0 : ℝ), 0.05), ((0 : ℝ), 0.1)] 5).getD 0
              defaultRoutePoint).idx) := by
  have h1 := claim_C3 [((0 : ℝ), (0 : ℝ))] 1 (by simp) (by norm_num)
  have h2 := claim_C3 [((0 : ℝ), (0 : ℝ)), ((0 : ℝ), 0.05), ((0 : ℝ), 0.1)] 5
    (by simp) (by norm_num)
  exact ⟨h1.1, h1.2.1, h1.2.2.1, h2.2.2.2 0 (by rw [scenario_eval]; simp)⟩


end WeatherRouteMap
